import Mathlib

/-!
Shallow embedding of the RFInject repository's Python utilities
(`pyscripts/download_hf_datasets.py`, `pyscripts/example_script.py`,
`pyscripts/process_data.py`, `src/your_package/example.py`) together with
theorems settling the specification's claims about them.

Conventions of the embedding:
- Python exceptions become explicit error values (`PyError`, `Except`).
- The filesystem and the network are oracles passed in as functions.
- Machine side effects (directory creation, file writes, sleeps) are
  recorded as explicit traces so ordering claims can be stated.
- Python string methods used by the scripts (`strip`, `upper`, `lower`)
  are modelled on the string's character list so they compute.
-/

/-- Python `str.strip()`: drop whitespace from both ends. -/
def py_strip (s : String) : String :=
  String.mk (((s.data.dropWhile Char.isWhitespace).reverse.dropWhile
    Char.isWhitespace).reverse)

/-- Python `str.upper()` (ASCII contents in this repository). -/
def py_upper (s : String) : String :=
  String.mk (s.data.map Char.toUpper)

/-- Python `str.lower()` (ASCII contents in this repository). -/
def py_lower (s : String) : String :=
  String.mk (s.data.map Char.toLower)

/-- The narrow kinds of Python exceptions the scripts raise:
`FileNotFoundError`, `ValueError`, and `AssertionError` (from `assert`). -/
inductive PyError where
  | fileNotFound (msg : String)
  | valueError (msg : String)
  | assertionError (msg : String)
deriving DecidableEq

/-- The message carried by an error, as printed by `print(f'Error: {e}')`. -/
def PyError.msg : PyError → String
  | PyError.fileNotFound m => m
  | PyError.valueError m => m
  | PyError.assertionError m => m

/-! ## `download_hf_datasets.download_dataset`

The body of `download_dataset` is a `while retries < max_retries` loop
around one `snapshot_download` call.  The network call is abstracted as an
oracle `attempt : Nat → Except String String` giving, for each attempt
index (0-based), either the downloaded path or the raised exception's
message.  A `DownloadTrace` records how many attempts ran, the sequence of
`time.sleep` calls performed between attempts, and the final outcome:
`Except.ok (some p)` for `return download_path`, `Except.error e` for the
re-`raise` after exhausting retries, and `Except.ok none` for the
(unreachable under the asserts) fall-through returning `None`. -/

structure DownloadTrace where
  attempts : Nat
  sleeps : List Nat
  result : Except String (Option String)

/-- One unrolling of the `while retries < max_retries` loop, compiled with
the loop variant `fuel = max_retries - retries` as the structural argument.
`fuel = 0` is the loop condition failing (fall through, return `None`);
otherwise run `attempt retries`; on success return; on failure the code
increments `retries` and, if budget remains (`fuel - 1 > 0`), sleeps
`retryDelay` seconds and iterates, else re-raises the caught exception. -/
def download_go (attempt : Nat → Except String String) (retryDelay : Nat) :
    Nat → Nat → DownloadTrace
  | _, 0 => ⟨0, [], Except.ok none⟩
  | retries, fuel + 1 =>
    match attempt retries with
    | Except.ok p => ⟨1, [], Except.ok (some p)⟩
    | Except.error e =>
      match fuel with
      | 0 => ⟨1, [], Except.error e⟩
      | g + 1 =>
        let rest := download_go attempt retryDelay (retries + 1) (g + 1)
        ⟨rest.attempts + 1, retryDelay :: rest.sleeps, rest.result⟩

/-- `download_dataset(repo_id, repo_type, local_dir, max_retries, retry_delay)`:
the leading `assert` statements, then the retry loop started at
`retries = 0`.  An `assert` failure is an `AssertionError` escaping the
function; `retry_delay : Nat` reflects the assert `retry_delay >= 0`. -/
def download_dataset (attempt : Nat → Except String String)
    (repo_id repo_type local_dir : String) (max_retries retry_delay : Nat) :
    Except PyError DownloadTrace :=
  if py_strip repo_id = "" then
    Except.error (PyError.assertionError "repo_id must be a non-empty string")
  else if py_strip repo_type = "" then
    Except.error (PyError.assertionError "repo_type must be a non-empty string")
  else if max_retries = 0 then
    Except.error (PyError.assertionError "max_retries must be a positive integer")
  else
    Except.ok (download_go attempt retry_delay 0 max_retries)

/-- If every attempt fails, the loop runs `fuel` attempts from any start
index, sleeps `fuel - 1` times, and ends with the last attempt's error. -/
theorem download_go_all_fail (attempt : Nat → Except String String)
    (errs : Nat → String) (retryDelay : Nat)
    (hfail : ∀ i, attempt i = Except.error (errs i)) :
    ∀ fuel retries, 1 ≤ fuel →
      download_go attempt retryDelay retries fuel =
        ⟨fuel, List.replicate (fuel - 1) retryDelay,
          Except.error (errs (retries + fuel - 1))⟩ := by
  intro fuel
  induction fuel with
  | zero => intro retries h; omega
  | succ f ih =>
    intro retries _
    cases f with
    | zero =>
      simp [download_go, hfail retries]
    | succ g =>
      have hrec := ih (retries + 1) (by omega)
      have hidx : retries + 1 + (g + 1) - 1 = retries + (g + 1 + 1) - 1 := by
        omega
      simp only [download_go, hfail retries, hrec]
      simp [List.replicate_succ, hidx]

/-- C1: for every non-empty `repo_id`, non-empty `repo_type`,
`max_retries ≥ 1` and (non-negative) `retry_delay`, if every download
attempt fails then `download_dataset` performs exactly `max_retries`
attempts, sleeps `retry_delay` seconds between consecutive attempts
(exactly `max_retries - 1` sleeps), and propagates the last attempt's
failure to the caller. -/
theorem download_dataset_exhausts_retries (attempt : Nat → Except String String)
    (errs : Nat → String) (repo_id repo_type local_dir : String)
    (max_retries retry_delay : Nat)
    (hid : py_strip repo_id ≠ "") (hty : py_strip repo_type ≠ "")
    (hmr : 1 ≤ max_retries)
    (hfail : ∀ i, attempt i = Except.error (errs i)) :
    download_dataset attempt repo_id repo_type local_dir max_retries retry_delay =
      Except.ok ⟨max_retries, List.replicate (max_retries - 1) retry_delay,
        Except.error (errs (max_retries - 1))⟩ := by
  have h := download_go_all_fail attempt errs retry_delay hfail max_retries 0 hmr
  simp only [download_dataset]
  rw [if_neg hid, if_neg hty, if_neg (by omega : ¬ max_retries = 0), h]
  simp

/-- A network oracle on which every attempt fails with message `"down"`. -/
def c1_attempt : Nat → Except String String := fun _ => Except.error "down"

/-- Witness for C1 at `max_retries = 3`, `retry_delay = 5`: three attempts,
two sleeps of 5 seconds, and the last failure propagated. -/
theorem download_dataset_exhausts_retries_witness :
    download_dataset c1_attempt "org/data" "dataset" "." 3 5 =
      Except.ok ⟨3, [5, 5], Except.error "down"⟩ := by
  have h := download_dataset_exhausts_retries c1_attempt (fun _ => "down")
    "org/data" "dataset" "." 3 5 (by decide) (by decide) (by decide)
    (fun i => rfl)
  simpa using h

/-- A network oracle whose attempt 0 fails and whose attempt 1 succeeds
with path `"path2"`. -/
def c2_attempt : Nat → Except String String := fun i =>
  if i = 0 then Except.error "boom" else Except.ok "path2"

/-- C2 counterexample: with `max_retries = 1` (which satisfies
`max_retries ≥ 1`), the first attempt failing and the second attempt set
to succeed, `download_dataset` never reaches the second attempt: it
performs one attempt and propagates the failure instead of returning the
success path. -/
theorem download_dataset_second_attempt_cex :
    (download_dataset c2_attempt "repo" "dataset" "." 1 0).map DownloadTrace.result =
      Except.ok (Except.error "boom") ∧
    c2_attempt 0 = Except.error "boom" ∧ c2_attempt 1 = Except.ok "path2" :=
  ⟨rfl, rfl, rfl⟩

/-- C2 amended: for `max_retries ≥ 2`, if the first attempt fails and the
second succeeds, `download_dataset` returns the success path of the second
attempt without raising (after one sleep). -/
theorem download_dataset_second_attempt_ok (attempt : Nat → Except String String)
    (repo_id repo_type local_dir : String) (max_retries retry_delay : Nat)
    (e p : String)
    (hid : py_strip repo_id ≠ "") (hty : py_strip repo_type ≠ "")
    (hmr : 2 ≤ max_retries)
    (h0 : attempt 0 = Except.error e) (h1 : attempt 1 = Except.ok p) :
    download_dataset attempt repo_id repo_type local_dir max_retries retry_delay =
      Except.ok ⟨2, [retry_delay], Except.ok (some p)⟩ := by
  obtain ⟨g, rfl⟩ : ∃ g, max_retries = g + 2 := ⟨max_retries - 2, by omega⟩
  simp only [download_dataset]
  rw [if_neg hid, if_neg hty, if_neg (by omega : ¬ g + 2 = 0)]
  simp [download_go, h0, h1]

/-- Witness for the amended C2 at `max_retries = 5`, `retry_delay = 3`. -/
theorem download_dataset_second_attempt_ok_witness :
    download_dataset c2_attempt "repo" "dataset" "." 5 3 =
      Except.ok ⟨2, [3], Except.ok (some "path2")⟩ :=
  download_dataset_second_attempt_ok c2_attempt "repo" "dataset" "." 5 3
    "boom" "path2" (by decide) (by decide) (by decide) rfl rfl

/-! ## `example_script.process_file` and its `main`

The filesystem is an oracle `fs : String → Option String` mapping a path
to the file's content, `none` when the file does not exist.  `process_file`
validates its arguments (asserts), checks existence, reads, rejects blank
content, uppercases, and either writes to the output path or prints. -/

inductive FileOutput where
  | wrote (path : String) (content : String)
  | printed (content : String)
deriving DecidableEq

/-- `example_script.process_file(input_path, output_path, verbose)`.
The `verbose` prints carry no data and are omitted from the result. -/
def process_file (fs : String → Option String) (input_path : String)
    (output_path : Option String) : Except PyError FileOutput :=
  if py_strip input_path = "" then
    Except.error (PyError.assertionError "input_path must be a non-empty string")
  else
    match fs input_path with
    | none => Except.error (PyError.fileNotFound ("Input file not found: " ++ input_path))
    | some content =>
      if py_strip content = "" then
        Except.error (PyError.valueError "Input file is empty")
      else
        let processed := py_upper content
        match output_path with
        | some op => Except.ok (FileOutput.wrote op processed)
        | none => Except.ok (FileOutput.printed processed)

/-- `example_script.main`: runs `process_file`; on success returns exit
code 0 with nothing on stderr, on any exception exit code 1 with
`Error: <message>` on stderr. -/
def example_script_main (fs : String → Option String) (input_path : String)
    (output_path : Option String) : Nat × Option String :=
  match process_file fs input_path output_path with
  | Except.ok _ => (0, none)
  | Except.error e => (1, some ("Error: " ++ e.msg))

/-- C5: for every readable, non-blank input file, the transform command
uppercases the full content and nothing else: with an output path the
exact uppercased text is written there verbatim, without one it is
printed; in particular `"  Hello  \nWorld\n"` maps to
`"  HELLO  \nWORLD\n"`. -/
theorem process_file_uppercases (fs : String → Option String)
    (input_path op content : String)
    (h1 : py_strip input_path ≠ "") (h2 : fs input_path = some content)
    (h3 : py_strip content ≠ "") :
    process_file fs input_path (some op) =
      Except.ok (FileOutput.wrote op (py_upper content)) ∧
    process_file fs input_path none =
      Except.ok (FileOutput.printed (py_upper content)) ∧
    py_upper "  Hello  \nWorld\n" = "  HELLO  \nWORLD\n" := by
  refine ⟨?_, ?_, by decide⟩ <;>
    simp [process_file, h1, h2, h3]

/-- The filesystem used by the C5 and C6 witnesses. -/
def c5_fs : String → Option String := fun p =>
  if p = "in.txt" then some "  Hello  \nWorld\n"
  else if p = "empty.txt" then some ""
  else none

/-- Witness for C5 on the concrete file `"in.txt"`. -/
theorem process_file_uppercases_witness :
    process_file c5_fs "in.txt" (some "out.txt") =
      Except.ok (FileOutput.wrote "out.txt" (py_upper "  Hello  \nWorld\n")) :=
  (process_file_uppercases c5_fs "in.txt" "out.txt" "  Hello  \nWorld\n"
    (by decide) rfl (by decide)).1

/-- C6: for every existing input file with empty content, the transform
command raises `ValueError('Input file is empty')` (so no output value is
produced and nothing is written), and the process exits with status 1 and
the human-readable message `Error: Input file is empty` on stderr. -/
theorem process_file_empty_error (fs : String → Option String)
    (input_path : String) (output_path : Option String)
    (h1 : py_strip input_path ≠ "") (h2 : fs input_path = some "") :
    process_file fs input_path output_path =
      Except.error (PyError.valueError "Input file is empty") ∧
    example_script_main fs input_path output_path =
      (1, some "Error: Input file is empty") := by
  have hemp : py_strip "" = "" := by decide
  have hp : process_file fs input_path output_path =
      Except.error (PyError.valueError "Input file is empty") := by
    simp [process_file, h1, h2, hemp]
  exact ⟨hp, by simp [example_script_main, hp, PyError.msg]⟩

/-- Witness for C6 on the concrete empty file `"empty.txt"`. -/
theorem process_file_empty_error_witness :
    example_script_main c5_fs "empty.txt" (some "out.txt") =
      (1, some "Error: Input file is empty") :=
  (process_file_empty_error c5_fs "empty.txt" (some "out.txt")
    (by decide) rfl).2

/-! ## `your_package.example.DataProcessor`

`DataProcessor` holds a `name` and a flat `config` mapping (the only key
the code reads is the boolean `'uppercase'`).  `transform_text` is
modelled state-passing: it returns the processor object (the state after
the call) together with the returned string. -/

structure DataProcessor where
  name : String
  config : List (String × Bool)
deriving DecidableEq

/-- `DataProcessor.__init__(name, config)`: asserts `name` non-empty,
stores `name` and `config or {}`. -/
def DataProcessor.init (name : String) (config : Option (List (String × Bool))) :
    Except PyError DataProcessor :=
  if py_strip name = "" then
    Except.error (PyError.assertionError "name must be a non-empty string")
  else
    Except.ok ⟨name, config.getD []⟩

/-- `DataProcessor.transform_text(text)`: strips the text, then upper- or
lower-cases it according to `config.get('uppercase', False)`.  The method
assigns no attribute, so the returned state is the receiver itself. -/
def DataProcessor.transform_text (p : DataProcessor) (text : String) :
    DataProcessor × String :=
  let result := py_strip text
  let result :=
    if (p.config.lookup "uppercase").getD false then py_upper result
    else py_lower result
  (p, result)

/-- A sequence of `transform_text` calls threaded through the processor
state, collecting the returned strings. -/
def DataProcessor.transformCalls (p : DataProcessor) :
    List String → DataProcessor × List String
  | [] => (p, [])
  | t :: ts =>
    let step := p.transform_text t
    let rest := step.1.transformCalls ts
    (rest.1, step.2 :: rest.2)

/-- C8: for every constructed `DataProcessor` and every sequence of
`transform_text` calls, the processor state after the calls is the
constructed one: `name` and `config` are never mutated. -/
theorem DataProcessor.transform_text_preserves_state (name : String)
    (config : Option (List (String × Bool))) (p : DataProcessor)
    (hinit : DataProcessor.init name config = Except.ok p) :
    ∀ texts : List String,
      (p.transformCalls texts).1.name = p.name ∧
      (p.transformCalls texts).1.config = p.config ∧
      (p.transformCalls texts).1 = p := by
  have key : ∀ (q : DataProcessor) (texts : List String),
      (q.transformCalls texts).1 = q := by
    intro q texts
    induction texts generalizing q with
    | nil => rfl
    | cons t ts ih => simpa [DataProcessor.transformCalls,
        DataProcessor.transform_text] using ih q
  intro texts
  exact ⟨by rw [key], by rw [key], key p texts⟩

/-- Witness for C8: a concrete processor run on two texts. -/
theorem DataProcessor.transform_text_preserves_state_witness :
    (DataProcessor.transformCalls ⟨"proc", [("uppercase", true)]⟩
      ["  a ", "b"]).1 = ⟨"proc", [("uppercase", true)]⟩ :=
  (DataProcessor.transform_text_preserves_state "proc"
    (some [("uppercase", true)]) ⟨"proc", [("uppercase", true)]⟩
    rfl ["  a ", "b"]).2.2

/-! ## Path handling (`pathlib.Path.suffix`, `.parent`, `str.lstrip('.')`)

`process_data.py` dispatches on `Path(file_path).suffix.lower()` and on
`Path(output_path).suffix.lower().lstrip('.')`, and creates
`Path(output_path).parent`.  `PurePath.suffix` returns the final
component's extension: the slice from the last `'.'` when that dot is
neither the first nor the last character of the name, else `''`. -/

/-- Index of the last occurrence of `c` in `l`, if any. -/
def lastIdxOf (c : Char) : List Char → Option Nat
  | [] => none
  | x :: xs =>
    match lastIdxOf c xs with
    | some i => some (i + 1)
    | none => if x = c then some 0 else none

/-- The final path component: the characters after the last `'/'`. -/
def lastComponent (path : String) : List Char :=
  match lastIdxOf '/' path.data with
  | some i => path.data.drop (i + 1)
  | none => path.data

/-- `pathlib.Path(path).suffix`. -/
def pySuffix (path : String) : String :=
  let nm := lastComponent path
  match lastIdxOf '.' nm with
  | some i => if 0 < i ∧ i < nm.length - 1 then String.mk (nm.drop i) else ""
  | none => ""

/-- `pathlib.Path(path).parent` (enough of it for these scripts: the text
before the last `'/'`, or `'.'` when there is none). -/
def pyParent (path : String) : String :=
  match lastIdxOf '/' path.data with
  | some i => String.mk (path.data.take i)
  | none => "."

/-! ## `process_data.load_dataset` -/

/-- The four decoders `load_dataset` dispatches to. -/
inductive Decoder where
  | csv
  | json
  | excel
  | parquet
deriving DecidableEq

/-- `process_data.load_dataset(file_path)`: assert non-empty path, check
existence (`fs` tells whether a path exists), then dispatch on the
lowercased suffix: `.csv`, `.json`, `.xlsx`/`.xls`, `.parquet`, else
`ValueError`. -/
def load_dataset (fs : String → Bool) (file_path : String) :
    Except PyError Decoder :=
  if py_strip file_path = "" then
    Except.error (PyError.assertionError "file_path must be a non-empty string")
  else if fs file_path = false then
    Except.error (PyError.fileNotFound ("File not found: " ++ file_path))
  else
    let suffix := py_lower (pySuffix file_path)
    if suffix = ".csv" then Except.ok Decoder.csv
    else if suffix = ".json" then Except.ok Decoder.json
    else if suffix = ".xlsx" ∨ suffix = ".xls" then Except.ok Decoder.excel
    else if suffix = ".parquet" then Except.ok Decoder.parquet
    else Except.error (PyError.valueError ("Unsupported file format: " ++ suffix))

/-- C7: for every path (with the assert satisfied): a missing file raises
`FileNotFoundError`; otherwise the lowercased extension dispatches to
exactly one of the four decoders, and any other extension raises
`ValueError` reporting the unsupported format. -/
theorem load_dataset_dispatch (fs : String → Bool) (file_path : String)
    (h : py_strip file_path ≠ "") :
    (fs file_path = false →
      load_dataset fs file_path =
        Except.error (PyError.fileNotFound ("File not found: " ++ file_path))) ∧
    (fs file_path = true →
      (py_lower (pySuffix file_path) = ".csv" →
        load_dataset fs file_path = Except.ok Decoder.csv) ∧
      (py_lower (pySuffix file_path) = ".json" →
        load_dataset fs file_path = Except.ok Decoder.json) ∧
      (py_lower (pySuffix file_path) = ".xlsx" ∨
          py_lower (pySuffix file_path) = ".xls" →
        load_dataset fs file_path = Except.ok Decoder.excel) ∧
      (py_lower (pySuffix file_path) = ".parquet" →
        load_dataset fs file_path = Except.ok Decoder.parquet) ∧
      (py_lower (pySuffix file_path) ∉
          [".csv", ".json", ".xlsx", ".xls", ".parquet"] →
        load_dataset fs file_path =
          Except.error (PyError.valueError
            ("Unsupported file format: " ++ py_lower (pySuffix file_path))))) := by
  constructor
  · intro hmiss
    simp [load_dataset, h, hmiss]
  · intro hex
    refine ⟨?_, ?_, ?_, ?_, ?_⟩ <;> intro hs
    · simp [load_dataset, h, hex, hs]
    · simp [load_dataset, h, hex, hs]
    · rcases hs with hs | hs <;> simp [load_dataset, h, hex, hs]
    · simp [load_dataset, h, hex, hs]
    · simp only [List.mem_cons, List.mem_singleton, not_or] at hs
      obtain ⟨n1, n2, n3, n4, n5, -⟩ := hs
      simp [load_dataset, h, hex, n1, n2, n3, n4, n5]

/-- An existence oracle on which every path exists. -/
def c7_fs : String → Bool := fun _ => true

/-- Witness for C7: `"data/input.CSV"` dispatches to the csv decoder. -/
theorem load_dataset_dispatch_witness :
    load_dataset c7_fs "data/input.CSV" = Except.ok Decoder.csv :=
  ((load_dataset_dispatch c7_fs "data/input.CSV" (by decide)).2 rfl).1
    (by decide)

/-! ## `process_data.save_dataset`

The filesystem side effects of `save_dataset` are recorded in order: the
unconditional `output_path_obj.parent.mkdir(parents=True, exist_ok=True)`
first, then (only when the format is supported) the write by the chosen
encoder.  The second component is the raised error, if any. -/

inductive SaveEffect where
  | mkdir (dir : String)
  | write (path : String) (fmt : String)
deriving DecidableEq

/-- The format inferred from the output path when `format_type` is
`None`: `Path(output_path).suffix.lower().lstrip('.')`. -/
def inferred_format (output_path : String) : String :=
  String.mk ((py_lower (pySuffix output_path)).data.dropWhile (fun c => c = '.'))

/-- `process_data.save_dataset(df, output_path, format_type)`; the
dataframe argument only flows into the write, so the effect trace does
not depend on it. -/
def save_dataset (output_path : String) (format_type : Option String) :
    List SaveEffect × Option PyError :=
  if py_strip output_path = "" then
    ([], some (PyError.assertionError "output_path must be a non-empty string"))
  else
    let eff := [SaveEffect.mkdir (pyParent output_path)]
    let fmt :=
      match format_type with
      | some f => f
      | none => inferred_format output_path
    if fmt = "csv" then (eff ++ [SaveEffect.write output_path "csv"], none)
    else if fmt = "json" then (eff ++ [SaveEffect.write output_path "json"], none)
    else if fmt = "parquet" then (eff ++ [SaveEffect.write output_path "parquet"], none)
    else (eff, some (PyError.valueError ("Unsupported output format: " ++ fmt)))

/-- C4: with no explicit format and an extension outside csv/json/parquet,
`save_dataset` raises `ValueError` having performed no write (its only
effect is the `mkdir`); and for every format argument its effect trace is
the `mkdir` of the destination directory first, followed only by writes
to the output path — the directory is ensured to exist before writing. -/
theorem save_dataset_format_and_mkdir (output_path : String)
    (format_type : Option String) (h : py_strip output_path ≠ "") :
    (format_type = none →
      inferred_format output_path ∉ ["csv", "json", "parquet"] →
      save_dataset output_path none =
        ([SaveEffect.mkdir (pyParent output_path)],
          some (PyError.valueError
            ("Unsupported output format: " ++ inferred_format output_path)))) ∧
    ((save_dataset output_path format_type).1.head? =
        some (SaveEffect.mkdir (pyParent output_path)) ∧
      ∀ e ∈ (save_dataset output_path format_type).1.tail,
        ∃ f, e = SaveEffect.write output_path f) := by
  constructor
  · intro _ hbad
    simp only [List.mem_cons, List.mem_singleton, not_or] at hbad
    obtain ⟨n1, n2, n3, -⟩ := hbad
    simp [save_dataset, h, n1, n2, n3]
  · constructor
    · simp only [save_dataset, if_neg h]
      split
      · simp
      · split
        · simp
        · split <;> simp
    · intro e he
      simp only [save_dataset, if_neg h] at he
      split at he
      · simp at he
        exact ⟨"csv", he⟩
      · split at he
        · simp at he
          exact ⟨"json", he⟩
        · split at he
          · simp at he
            exact ⟨"parquet", he⟩
          · simp at he

/-- Witness for C4: saving to `"out/result.txt"` with no explicit format
creates the directory, writes nothing, and reports the unsupported
format `txt`. -/
theorem save_dataset_format_and_mkdir_witness :
    save_dataset "out/result.txt" none =
      ([SaveEffect.mkdir "out"],
        some (PyError.valueError "Unsupported output format: txt")) := by
  have h := (save_dataset_format_and_mkdir "out/result.txt" none
    (by decide)).1 rfl (by decide)
  simpa using h

/-! ## The tabular data model for `process_data.clean_dataset`

A pandas `DataFrame` is modelled as an ordered list of named columns.
A column is either numeric (pandas float/int dtypes; missing = `NaN`,
modelled `Option ℚ`) or categorical (`object` dtype; missing = `None`,
modelled `Option String`).  `clean_dataset` treats the two dtype classes
through disjoint code paths, so this split mirrors
`select_dtypes(include=[np.number])` and
`select_dtypes(include=['object', 'category'])`. -/

inductive Cell where
  | num (v : Option ℚ)
  | cat (v : Option String)
deriving DecidableEq

inductive ColData where
  | numeric (vals : List (Option ℚ))
  | categorical (vals : List (Option String))
deriving DecidableEq

def ColData.length : ColData → Nat
  | ColData.numeric vs => vs.length
  | ColData.categorical vs => vs.length

/-- The cell of a column at row `i` (missing when out of range). -/
def ColData.cell : ColData → Nat → Cell
  | ColData.numeric vs, i => Cell.num (vs.getD i none)
  | ColData.categorical vs, i => Cell.cat (vs.getD i none)

/-- Restrict a column to the given row indices, in order. -/
def ColData.select : ColData → List Nat → ColData
  | ColData.numeric vs, ixs => ColData.numeric (ixs.map (fun i => vs.getD i none))
  | ColData.categorical vs, ixs =>
    ColData.categorical (ixs.map (fun i => vs.getD i none))

structure DataFrame where
  cols : List (String × ColData)
deriving DecidableEq

instance : Inhabited DataFrame := ⟨⟨[]⟩⟩

/-- `len(df)`: number of rows (length of the first column; all columns of
a well-formed frame agree). -/
def DataFrame.nrows (df : DataFrame) : Nat :=
  match df.cols with
  | [] => 0
  | c :: _ => c.2.length

/-- A well-formed frame: every column has `nrows` entries. -/
def DataFrame.WF (df : DataFrame) : Prop :=
  ∀ c ∈ df.cols, c.2.length = df.nrows

/-- Row `i` as the tuple of its cells, used for duplicate comparison
(pandas treats missing values as equal to each other here). -/
def DataFrame.row (df : DataFrame) (i : Nat) : List Cell :=
  df.cols.map (fun c => c.2.cell i)

/-- The row indices `df.drop_duplicates()` keeps: those with no equal
earlier row (`keep='first'`). -/
def keepIndices (df : DataFrame) : List Nat :=
  (List.range df.nrows).filter
    (fun i => (List.range i).all (fun j => !(decide (df.row j = df.row i))))

/-- `df.drop_duplicates()`. -/
def drop_duplicates (df : DataFrame) : DataFrame :=
  ⟨df.cols.map (fun c => (c.1, c.2.select (keepIndices df)))⟩

/-- Insertion into a sorted list of rationals (ascending). -/
def insertRat (x : ℚ) : List ℚ → List ℚ
  | [] => [x]
  | y :: ys => if x ≤ y then x :: y :: ys else y :: insertRat x ys

def sortRats (l : List ℚ) : List ℚ := l.foldr insertRat []

/-- `Series.mean()` over the present values (`NaN`, i.e. `none`, when
there are none — pandas' mean of an all-NaN series). -/
def listMean (l : List ℚ) : Option ℚ :=
  if l.isEmpty then none else some (l.sum / (l.length : ℚ))

/-- `Series.median()` over the present values: middle element of the
sorted values, or the average of the two middle elements. -/
def listMedian (l : List ℚ) : Option ℚ :=
  let s := sortRats l
  let n := s.length
  if n = 0 then none
  else if n % 2 = 1 then some (s.getD (n / 2) 0)
  else some ((s.getD (n / 2 - 1) 0 + s.getD (n / 2) 0) / 2)

/-- Insertion into a sorted list of strings (ascending), the order
`Series.mode()` returns its result in. -/
def insertStr (x : String) : List String → List String
  | [] => [x]
  | y :: ys => if x < y then x :: y :: ys else y :: insertStr x ys

/-- `Series.mode()` of the present values: the values of maximal
multiplicity, sorted ascending; empty for an empty input. -/
def modeList (vs : List String) : List String :=
  let uniq := vs.foldl (fun acc v => if v ∈ acc then acc else acc ++ [v]) []
  let maxCount := (uniq.map (fun v => vs.count v)).foldl Nat.max 0
  (uniq.filter (fun v => vs.count v = maxCount)).foldr insertStr []

/-- The valid `fill_numeric_na` options of `clean_dataset`. -/
inductive NumFill where
  | mean
  | median
  | zero
deriving DecidableEq

/-- The valid `fill_categorical_na` options of `clean_dataset`. -/
inductive CatFill where
  | mode
  | unknown
deriving DecidableEq

/-- The fill value for a numeric column: mean or median of the column
(`none` = `NaN`, filling with which changes nothing), or the literal 0. -/
def numFillValue : NumFill → List (Option ℚ) → Option ℚ
  | NumFill.mean, vs => listMean (vs.filterMap id)
  | NumFill.median, vs => listMedian (vs.filterMap id)
  | NumFill.zero, _ => some 0

/-- The numeric-column pass of `clean_dataset`: if the column has a
missing entry, compute the strategy's fill value and `fillna` with it. -/
def fillNumericCol (strategy : NumFill) (vs : List (Option ℚ)) :
    List (Option ℚ) :=
  if vs.any (fun v => v.isNone) then
    match numFillValue strategy vs with
    | some x => vs.map (fun v => some (v.getD x))
    | none => vs
  else vs

/-- The fill value for a categorical column:
`mode_value[0] if len(mode_value) > 0 else 'unknown'`, or the literal
`'unknown'`. -/
def catFillValue : CatFill → List (Option String) → String
  | CatFill.mode, vs =>
    match modeList (vs.filterMap id) with
    | v :: _ => v
    | [] => "unknown"
  | CatFill.unknown, _ => "unknown"

/-- The categorical-column pass of `clean_dataset`. -/
def fillCategoricalCol (strategy : CatFill) (vs : List (Option String)) :
    List (Option String) :=
  if vs.any (fun v => v.isNone) then
    vs.map (fun v => some (v.getD (catFillValue strategy vs)))
  else vs

/-- Apply the numeric pass to every numeric column of the frame. -/
def fillNumericCols (strategy : NumFill) (df : DataFrame) : DataFrame :=
  ⟨df.cols.map (fun c =>
    match c.2 with
    | ColData.numeric vs => (c.1, ColData.numeric (fillNumericCol strategy vs))
    | ColData.categorical vs => (c.1, ColData.categorical vs))⟩

/-- Apply the categorical pass to every categorical column of the frame. -/
def fillCategoricalCols (strategy : CatFill) (df : DataFrame) : DataFrame :=
  ⟨df.cols.map (fun c =>
    match c.2 with
    | ColData.numeric vs => (c.1, ColData.numeric vs)
    | ColData.categorical vs =>
      (c.1, ColData.categorical (fillCategoricalCol strategy vs)))⟩

/-- `process_data.clean_dataset(df, drop_duplicates, fill_numeric_na,
fill_categorical_na)` as a pure function on the copied frame: optional
duplicate dropping, then the numeric pass, then the categorical pass. -/
def clean_dataset (df : DataFrame) (dropDup : Bool) (fn : NumFill)
    (fc : CatFill) : DataFrame :=
  let d1 := if dropDup then drop_duplicates df else df
  let d2 := fillNumericCols fn d1
  fillCategoricalCols fc d2

/-- `clean_dataset` with variable aliasing made explicit: a heap of frame
objects, the variable `df` bound to address 0, and `df_cleaned = df.copy()`
allocating a fresh object at address 1 which every subsequent in-place
statement targets.  Returns the final heap and the two addresses. -/
def clean_dataset_heap (df : DataFrame) (dropDup : Bool) (fn : NumFill)
    (fc : CatFill) : List DataFrame × Nat × Nat :=
  let heap0 := [df]
  let heap1 := heap0 ++ [heap0.getD 0 default]
  let heap2 :=
    if dropDup then heap1.set 1 (drop_duplicates (heap1.getD 1 default))
    else heap1
  let heap3 := heap2.set 1 (fillNumericCols fn (heap2.getD 1 default))
  let heap4 := heap3.set 1 (fillCategoricalCols fc (heap3.getD 1 default))
  (heap4, 0, 1)

/-! ## Claims C3, C9, C10 about `clean_dataset` -/

/-- The table loaded by `load_dataset` from the comma-separated file
`a,b` / `1,2` / `1,2` / `3,` — pandas reads both columns as numeric and
the missing `b` entry as `NaN`. -/
def c3_loaded : DataFrame :=
  ⟨[("a", ColData.numeric [some 1, some 1, some 3]),
    ("b", ColData.numeric [some 2, some 2, none])]⟩

/-- C3: cleaning the loaded table with duplicate dropping and the mean
fill strategy yields exactly one fewer row, and the missing value of
column `b` becomes the mean of the values present in column `b`. -/
theorem clean_dataset_csv_example :
    clean_dataset c3_loaded true NumFill.mean CatFill.mode =
      ⟨[("a", ColData.numeric [some 1, some 3]),
        ("b", ColData.numeric [some 2, some 2])]⟩ ∧
    (clean_dataset c3_loaded true NumFill.mean CatFill.mode).nrows + 1 =
      c3_loaded.nrows ∧
    listMean ([some (2 : ℚ), some 2, none].filterMap id) = some 2 := by
  have h1 : drop_duplicates c3_loaded =
      ⟨[("a", ColData.numeric [some 1, some 3]),
        ("b", ColData.numeric [some 2, none])]⟩ := by decide
  have hlm : listMean [(2 : ℚ)] = some 2 := by
    norm_num [listMean]
  have h2 : fillNumericCol NumFill.mean [some (2 : ℚ), none] =
      [some 2, some 2] := by
    simp [fillNumericCol, numFillValue, hlm]
  have h3 : fillNumericCol NumFill.mean [some (1 : ℚ), some 3] =
      [some 1, some 3] := by decide
  have hmain : clean_dataset c3_loaded true NumFill.mean CatFill.mode =
      ⟨[("a", ColData.numeric [some 1, some 3]),
        ("b", ColData.numeric [some 2, some 2])]⟩ := by
    simp only [clean_dataset, if_true, h1]
    simp only [fillNumericCols, List.map, h2, h3]
    simp [fillCategoricalCols]
  refine ⟨hmain, by rw [hmain]; rfl, ?_⟩
  have hfm2 : List.filterMap id [some (2 : ℚ), some 2, none] = [2, 2] := by
    decide
  rw [hfm2]
  norm_num [listMean]

/-- C9: the heap-explicit `clean_dataset` never touches the caller's
frame: the object at the caller's address is the input frame unchanged,
the returned object is the separately allocated copy (a distinct
address), and its value is the pure cleaning result. -/
theorem clean_dataset_heap_preserves_input (df : DataFrame) (dd : Bool)
    (fn : NumFill) (fc : CatFill) :
    (clean_dataset_heap df dd fn fc).1.getD 0 default = df ∧
    (clean_dataset_heap df dd fn fc).1.getD 1 default =
      clean_dataset df dd fn fc ∧
    (clean_dataset_heap df dd fn fc).2.1 ≠ (clean_dataset_heap df dd fn fc).2.2 := by
  cases dd <;> exact ⟨rfl, rfl, Nat.zero_ne_one⟩

/-- In a list whose entries are all `none`, `getD i none` is `none` at
every index. -/
theorem getD_all_none {α : Type} :
    ∀ (vs : List (Option α)), (∀ v ∈ vs, v = none) → ∀ i,
      vs.getD i none = none
  | [], _, i => by cases i <;> rfl
  | v :: vs, h, 0 => by
    simpa [List.getD_cons_zero] using h v (List.mem_cons_self v vs)
  | v :: vs, h, i + 1 => by
    rw [List.getD_cons_succ]
    exact getD_all_none vs (fun x hx => h x (List.mem_cons_of_mem v hx)) i

/-- On a non-empty all-missing column, the mode strategy's
`mode_value[0] if len(mode_value) > 0 else 'unknown'` fallback fires:
every entry is filled with the literal string `"unknown"`. -/
theorem fillCategoricalCol_mode_all_none (vs : List (Option String))
    (hall : ∀ v ∈ vs, v = none) (hne : vs ≠ []) :
    fillCategoricalCol CatFill.mode vs = vs.map (fun _ => some "unknown") := by
  have hany : vs.any (fun v => v.isNone) = true := by
    rcases vs with _ | ⟨v, vs'⟩
    · exact absurd rfl hne
    · have hv := hall v (List.mem_cons_self v vs')
      subst hv
      simp
  have hfm : vs.filterMap id = [] :=
    List.filterMap_eq_nil_iff.mpr (fun a ha => hall a ha)
  have hfv : catFillValue CatFill.mode vs = "unknown" := by
    simp only [catFillValue, hfm]
    rfl
  rw [fillCategoricalCol, if_pos hany]
  simp only [hfv]
  exact List.map_congr_left (fun a ha => by rw [hall a ha]; rfl)

/-- The numeric pass leaves every categorical column in place. -/
theorem fillNumericCols_mem_cat (fn : NumFill) (d : DataFrame)
    (cname : String) (vs : List (Option String))
    (h : (cname, ColData.categorical vs) ∈ d.cols) :
    (cname, ColData.categorical vs) ∈ (fillNumericCols fn d).cols :=
  List.mem_map_of_mem _ h

/-- The categorical pass maps a categorical column to its filled values. -/
theorem fillCategoricalCols_mem_cat (fc : CatFill) (d : DataFrame)
    (cname : String) (vs : List (Option String))
    (h : (cname, ColData.categorical vs) ∈ d.cols) :
    (cname, ColData.categorical (fillCategoricalCol fc vs)) ∈
      (fillCategoricalCols fc d).cols :=
  List.mem_map_of_mem _ h

/-- Duplicate dropping restricts a categorical column to the kept rows. -/
theorem drop_duplicates_mem_cat (d : DataFrame) (cname : String)
    (vs : List (Option String))
    (h : (cname, ColData.categorical vs) ∈ d.cols) :
    (cname, ColData.categorical
        ((keepIndices d).map (fun i => vs.getD i none))) ∈
      (drop_duplicates d).cols :=
  List.mem_map_of_mem _ h

/-- C10: for every well-formed frame with a categorical column that has
entries but no present (non-missing) value, `clean_dataset` under the
most-frequent-value strategy falls back to filling that column with the
literal string `"unknown"` instead of failing, whatever the duplicate
and numeric options are. -/
theorem clean_dataset_mode_fallback (df : DataFrame) (dd : Bool)
    (fn : NumFill) (cname : String) (vs : List (Option String))
    (hwf : df.WF) (hmem : (cname, ColData.categorical vs) ∈ df.cols)
    (hall : ∀ v ∈ vs, v = none) (hne : vs ≠ []) :
    ∃ vs', (cname, ColData.categorical vs') ∈
        (clean_dataset df dd fn CatFill.mode).cols ∧
      vs' ≠ [] ∧ ∀ v ∈ vs', v = some "unknown" := by
  have key : ∀ (d1 : DataFrame) (vs1 : List (Option String)),
      (cname, ColData.categorical vs1) ∈ d1.cols →
      (∀ v ∈ vs1, v = none) → vs1 ≠ [] →
      ∃ vs', (cname, ColData.categorical vs') ∈
          (fillCategoricalCols CatFill.mode (fillNumericCols fn d1)).cols ∧
        vs' ≠ [] ∧ ∀ v ∈ vs', v = some "unknown" := by
    intro d1 vs1 hm ha hn
    refine ⟨fillCategoricalCol CatFill.mode vs1,
      fillCategoricalCols_mem_cat _ _ _ _ (fillNumericCols_mem_cat _ _ _ _ hm),
      ?_, ?_⟩
    · rw [fillCategoricalCol_mode_all_none vs1 ha hn]
      intro habs
      exact hn (List.map_eq_nil_iff.mp habs)
    · rw [fillCategoricalCol_mode_all_none vs1 ha hn]
      intro v hv
      obtain ⟨w, -, rfl⟩ := List.mem_map.mp hv
      rfl
  cases dd with
  | false => simpa [clean_dataset] using key df vs hmem hall hne
  | true =>
    have hlen : vs.length = df.nrows := by
      simpa [ColData.length] using hwf _ hmem
    have hnr : 0 < df.nrows := by
      rcases vs with _ | ⟨v, vs'⟩
      · exact absurd rfl hne
      · simp only [List.length_cons] at hlen
        omega
    have h0mem : 0 ∈ keepIndices df :=
      List.mem_filter.mpr ⟨List.mem_range.mpr hnr, rfl⟩
    have hkne : keepIndices df ≠ [] := by
      intro habs
      rw [habs] at h0mem
      exact absurd h0mem (List.not_mem_nil 0)
    have hall1 : ∀ v ∈ (keepIndices df).map (fun i => vs.getD i none),
        v = none := by
      intro v hv
      obtain ⟨i, -, rfl⟩ := List.mem_map.mp hv
      exact getD_all_none vs hall i
    have hne1 : (keepIndices df).map (fun i => vs.getD i none) ≠ [] := by
      intro habs
      exact hkne (List.map_eq_nil_iff.mp habs)
    simpa [clean_dataset] using
      key (drop_duplicates df) _ (drop_duplicates_mem_cat df cname vs hmem)
        hall1 hne1

/-- A frame with one categorical column whose entries are all missing. -/
def c10_df : DataFrame := ⟨[("c", ColData.categorical [none, none])]⟩

/-- Witness for C10 on the concrete all-missing column `"c"`. -/
theorem clean_dataset_mode_fallback_witness :
    ∃ vs', ("c", ColData.categorical vs') ∈
        (clean_dataset c10_df true NumFill.mean CatFill.mode).cols ∧
      vs' ≠ [] ∧ ∀ v ∈ vs', v = some "unknown" :=
  clean_dataset_mode_fallback c10_df true NumFill.mean "c" [none, none]
    (fun c hc => by rw [List.mem_singleton.mp hc]; rfl)
    (by decide) (by decide) (by decide)
